import Mathlib

/-!
Verification development for the forum-adapter repository: a shallow
embedding of the resilient HTTP client (`NewClient`, `Do`), the adapter
configuration loaders (`Load` of the discourse and lemmy adapters) and
the four domain operations (`ListPosts`, `LoadPost`, `CreatePost`,
`CreateReply`) of the discourse adapter, together with theorems settling
the spec claims about them.
-/

/-- Mirror of the wire envelope `Response` (fields `Type`, `Timestamp`,
`Message`).  The optional payload fields (`Validation`, `Post`,
`Posts`) are carried by no claim and are elided; `typ` stands for the Go
field `Type`, which is a reserved word here. -/
structure Response where
  typ : String
  timestamp : Int
  message : String
deriving DecidableEq, Repr

/-- Outcome of one HTTP attempt made by the retrying client: either a
network error, or a response with a status code and a fully read body. -/
inductive AttemptOutcome where
  | netErr
  | response (status : Nat) (body : String)
deriving DecidableEq, Repr

/-- Result of `Client.Do` as observed by the caller: a transport error
(send, read or decode failure), a typed `RequestError` carrying the
decoded envelope, a runtime panic (nil-pointer dereference), or success. -/
inductive DoResult where
  | transportErr
  | requestErr (env : Response)
  | panicked
  | ok
deriving DecidableEq, Repr

/-- Default retry classifier of the retrying HTTP dependency used by
`Do`: network errors and the retryable status classes (429, 0, and 5xx
except 501) are transient.  The theorems about the retry bound depend
only on the classified value, not on the exact status set. -/
def shouldRetry : AttemptOutcome → Bool
  | .netErr => true
  | .response status _ =>
      status == 429 || status == 0 || (Nat.ble 500 status && !(status == 501))

/-- Retry loop of the retrying HTTP dependency configured by
`NewClient`: attempt `i` is made, a non-transient outcome stops the loop
with that outcome, a transient outcome consumes one remaining retry, and
an exhausted budget stops with a transport error (`none`).  Returns the
number of attempts made and the final response, if any. -/
def retryGo (outcomes : Nat → AttemptOutcome) : Nat → Nat → Nat × Option (Nat × String)
  | i, remain =>
    if shouldRetry (outcomes i) then
      match remain with
      | 0 => (i + 1, none)
      | r + 1 => retryGo outcomes (i + 1) r
    else
      (i + 1, match outcomes i with
              | .netErr => none
              | .response s b => some (s, b))

/-- Retry budget installed by `NewClient`: `c.httpClient.RetryMax = 3`,
i.e. up to 3 retries after the first attempt. -/
def clientRetryMax : Nat := 3

/-- Tail of `Client.Do` once a response is in hand: when a destination
envelope was supplied (`content != nil`), the body is decoded first — a
decode failure is returned as a transport error regardless of status —
and only then is the status code compared against [200, 204]; when no
destination was supplied the decode step is skipped and the non-2xx
branch dereferences the nil destination (`*content`), i.e. panics. -/
def processResponse (decode : String → Option Response) (contentSupplied : Bool)
    (status : Nat) (body : String) : DoResult :=
  if contentSupplied then
    match decode body with
    | none => .transportErr
    | some env =>
        if status < 200 ∨ 204 < status then .requestErr env else .ok
  else
    if status < 200 ∨ 204 < status then .panicked else .ok

/-- Mirror of `Client.Do`: run the request through the bounded retry
loop; a send failure (retries exhausted or non-retryable network error)
is a transport error; otherwise the response is processed by
`processResponse`.  The first component counts the HTTP attempts made. -/
def clientDo (retryMax : Nat) (outcomes : Nat → AttemptOutcome)
    (decode : String → Option Response) (contentSupplied : Bool) : Nat × DoResult :=
  match retryGo outcomes 0 retryMax with
  | (n, none) => (n, .transportErr)
  | (n, some (status, body)) => (n, processResponse decode contentSupplied status body)

theorem retryGo_perm (outcomes : Nat → AttemptOutcome)
    (h : ∀ i, shouldRetry (outcomes i) = true) :
    ∀ remain i, retryGo outcomes i remain = (i + remain + 1, none) := by
  intro remain
  induction remain with
  | zero => intro i; simp [retryGo, h i]
  | succ r ih =>
      intro i
      simp only [retryGo, h i, if_true]
      rw [ih (i + 1)]
      congr 1
      omega

theorem retryGo_fst_le (outcomes : Nat → AttemptOutcome) :
    ∀ remain i, (retryGo outcomes i remain).1 ≤ i + remain + 1 := by
  intro remain
  induction remain with
  | zero =>
      intro i
      by_cases h : shouldRetry (outcomes i) <;> simp [retryGo, h]
  | succ r ih =>
      intro i
      by_cases h : shouldRetry (outcomes i)
      · simp only [retryGo, h, if_true]
        have := ih (i + 1)
        omega
      · simp [retryGo, h]

theorem clientDo_fst (retryMax : Nat) (outcomes : Nat → AttemptOutcome)
    (decode : String → Option Response) (cs : Bool) :
    (clientDo retryMax outcomes decode cs).1 = (retryGo outcomes 0 retryMax).1 := by
  unfold clientDo
  rcases hr : retryGo outcomes 0 retryMax with ⟨n, r⟩
  cases r with
  | none => simp
  | some sb => rcases sb with ⟨s, b⟩; simp

/-- C1 counterexample: under a permanently failing transient condition
(every attempt a network error), `Do` with the `NewClient` retry budget
makes 4 attempts before surfacing the transport error — not the 3 the
claim states: `RetryMax = 3` bounds the retries after the first attempt,
not the total attempts. -/
theorem do_retry_three_attempts_cex :
    clientDo clientRetryMax (fun _ => .netErr) (fun _ => none) true = (4, .transportErr) ∧
    (4 : Nat) ≠ 3 := by
  constructor
  · rfl
  · decide

/-- C1 (amended): `Do` retries transient failures under a bounded policy
of at most 4 attempts total (one initial attempt plus the `RetryMax = 3`
retries set by `NewClient`), and a permanently failing transient
condition yields a transport error to the caller after the 4th attempt,
not before and not after. -/
theorem do_retry_bound (decode : String → Option Response) (cs : Bool)
    (outcomes : Nat → AttemptOutcome)
    (hperm : ∀ i, shouldRetry (outcomes i) = true) :
    clientDo clientRetryMax outcomes decode cs = (4, .transportErr) ∧
    ∀ outcomes2 : Nat → AttemptOutcome,
      (clientDo clientRetryMax outcomes2 decode cs).1 ≤ 4 := by
  constructor
  · have h4 : retryGo outcomes 0 clientRetryMax = (4, none) := by
      rw [retryGo_perm outcomes hperm clientRetryMax 0]
      rfl
    simp [clientDo, h4]
  · intro outcomes2
    rw [clientDo_fst]
    exact retryGo_fst_le outcomes2 clientRetryMax 0

/-- Witness for `do_retry_bound` at a concrete permanently failing
stream of outcomes. -/
theorem do_retry_bound_witness :
    clientDo clientRetryMax (fun _ => .netErr) (fun _ => none) false = (4, .transportErr) :=
  (do_retry_bound (fun _ => none) false (fun _ => .netErr) (fun _ => rfl)).1

/-- C2: for every response delivered by the retry loop whose status code
lies outside [200, 204], with a destination envelope supplied: if the
body decodes, `Do` returns the typed `RequestError` carrying the decoded
envelope; if the body does not decode, `Do` returns the transport
(decode) error instead — the body is decoded first and the status code
is evaluated only afterwards. -/
theorem do_decode_before_status (outcomes : Nat → AttemptOutcome)
    (decode : String → Option Response) (n status : Nat) (body : String)
    (hres : retryGo outcomes 0 clientRetryMax = (n, some (status, body)))
    (hst : status < 200 ∨ 204 < status) :
    (∀ env, decode body = some env →
      clientDo clientRetryMax outcomes decode true = (n, .requestErr env)) ∧
    (decode body = none →
      clientDo clientRetryMax outcomes decode true = (n, .transportErr)) := by
  constructor
  · intro env henv
    simp [clientDo, hres, processResponse, henv, hst]
  · intro hnone
    simp [clientDo, hres, processResponse, hnone]

/-- Witness for `do_decode_before_status`: a single 404 response (not a
retryable class), exercising both the decodable and the undecodable
body case. -/
theorem do_decode_before_status_witness :
    clientDo clientRetryMax (fun _ => .response 404 "nope")
      (fun _ => some ⟨"error", 0, "m"⟩) true = (1, .requestErr ⟨"error", 0, "m"⟩) ∧
    clientDo clientRetryMax (fun _ => .response 404 "nope")
      (fun _ => none) true = (1, .transportErr) := by
  constructor
  · exact (do_decode_before_status (fun _ => .response 404 "nope")
      (fun _ => some ⟨"error", 0, "m"⟩) 1 404 "nope" rfl (by omega)).1 _ rfl
  · exact (do_decode_before_status (fun _ => .response 404 "nope")
      (fun _ => none) 1 404 "nope" rfl (by omega)).2 rfl

/-- C8: for every response delivered by the retry loop whose status code
lies outside [200, 204], calling `Do` with a nil destination envelope
skips the decode step and dereferences the nil destination in the
`RequestError` branch — a panic, not a typed error — while with a
non-nil destination whose body decodes, the same branch returns the
typed `RequestError`. -/
theorem do_nil_destination_panics (outcomes : Nat → AttemptOutcome)
    (decode : String → Option Response) (n status : Nat) (body : String)
    (hres : retryGo outcomes 0 clientRetryMax = (n, some (status, body)))
    (hst : status < 200 ∨ 204 < status) :
    clientDo clientRetryMax outcomes decode false = (n, .panicked) ∧
    ∀ env, decode body = some env →
      clientDo clientRetryMax outcomes decode true = (n, .requestErr env) := by
  constructor
  · simp [clientDo, hres, processResponse, hst]
  · intro env henv
    simp [clientDo, hres, processResponse, henv, hst]

/-- Witness for `do_nil_destination_panics` at a concrete 404 response. -/
theorem do_nil_destination_panics_witness :
    clientDo clientRetryMax (fun _ => .response 404 "body")
      (fun _ => some ⟨"error", 0, "m"⟩) false = (1, .panicked) :=
  (do_nil_destination_panics (fun _ => .response 404 "body")
    (fun _ => some ⟨"error", 0, "m"⟩) 1 404 "body" rfl (by omega)).1

/-- Value stored in the dynamically typed adapter configuration map
(`map[string]interface{}`): a string, a nested string-keyed map, or a
value of some other dynamic type (number). -/
inductive CVal where
  | str (s : String)
  | cmap (entries : List (String × CVal))
  | num (n : Int)

/-- Lookup in the configuration map; a missing key is the Go nil
interface value. -/
def cfgLookup (cfg : List (String × CVal)) (k : String) : Option CVal :=
  (cfg.find? (fun kv => kv.1 == k)).map (fun kv => kv.2)

/-- Mirror of the credentials coercion loop in `Load`: each entry of the
asserted `map[string]interface{}` is converted with an unchecked
`v.(string)` assertion; the first non-string value is a runtime panic
(`none`). -/
def credsAsStrings : List (String × CVal) → Option (List (String × String))
  | [] => some []
  | (k, .str v) :: rest => (credsAsStrings rest).map (fun tl => (k, v) :: tl)
  | (_, _) :: _ => none

/-- Whether the discourse `Load` would panic on the `credentials` entry:
the key is absent (type assertion on a nil interface), its value is not
a map, or some credential value is not a string. -/
def credsBadlyTyped (cfg : List (String × CVal)) : Bool :=
  match cfgLookup cfg "credentials" with
  | some (.cmap entries) => (credsAsStrings entries).isNone
  | _ => true

/-- Result of the discourse adapter's `Load`: success carrying the
constructed client's endpoint and credentials (`none` when no client was
constructed), a returned error, or a runtime panic.  The `err`
constructor mirrors the function's error channel. -/
inductive DLoadResult where
  | ok (client : Option (String × List (String × String)))
  | err
  | panicked
deriving DecidableEq, Repr

/-- Mirror of the discourse adapter's `Load`: a missing `url` returns
nil at once; otherwise `credentials` is read with an unchecked type
assertion and each value coerced with `v.(string)` (panic on any
mismatch), and the client is built from `url.(string)` (panic when `url`
is not a string).  No network activity occurs: `NewClient` only
constructs the client. -/
def discourseLoad (cfg : List (String × CVal)) : DLoadResult :=
  match cfgLookup cfg "url" with
  | none => .ok none
  | some urlv =>
    match cfgLookup cfg "credentials" with
    | some (.cmap entries) =>
        match credsAsStrings entries with
        | none => .panicked
        | some creds =>
            match urlv with
            | .str u => .ok (some (u, creds))
            | _ => .panicked
    | _ => .panicked

/-- Result of the lemmy adapter's `Load`: success recording whether a
client was constructed, a returned error, or a runtime panic. -/
inductive LLoadResult where
  | ok (clientConstructed : Bool)
  | err
  | panicked
deriving DecidableEq, Repr

/-- Mirror of the lemmy adapter's `Load`: a missing `url` returns nil at
once; otherwise a client is built from `url.(string)` (network
construction, may fail), the credentials are coerced as in the discourse
adapter, and a login call is made.  `newOk` and `loginOk` stand for the
outcomes of the two network calls. -/
def lemmyLoad (cfg : List (String × CVal)) (newOk loginOk : Bool) : LLoadResult :=
  match cfgLookup cfg "url" with
  | none => .ok false
  | some (.str _) =>
      if newOk then
        match cfgLookup cfg "credentials" with
        | some (.cmap entries) =>
            match credsAsStrings entries with
            | none => .panicked
            | some _ => if loginOk then .ok true else .err
        | _ => .panicked
      else .err
  | some _ => .panicked

/-- C6: for every adapter configuration in which the `url` key is
absent, `Load` returns no error, performs no network activity and
constructs no client, in both adapters: the discourse result carries no
client, and the lemmy result carries no client and is independent of
the outcomes of the two network calls. -/
theorem load_missing_url_noop (cfg : List (String × CVal))
    (h : cfgLookup cfg "url" = none) :
    discourseLoad cfg = .ok none ∧
    ∀ newOk loginOk : Bool, lemmyLoad cfg newOk loginOk = .ok false := by
  constructor
  · simp [discourseLoad, h]
  · intro newOk loginOk
    simp [lemmyLoad, h]

/-- Witness for `load_missing_url_noop` at the empty configuration. -/
theorem load_missing_url_noop_witness :
    discourseLoad [] = .ok none ∧ lemmyLoad [] true false = .ok false :=
  ⟨(load_missing_url_noop [] rfl).1, (load_missing_url_noop [] rfl).2 true false⟩

/-- C9: for every configuration in which `url` is present but the
`credentials` entry is absent or not a map with string values, the
discourse `Load` panics on an unchecked type assertion rather than
returning an error; and on no input at all does the discourse `Load`
return a non-nil error — it either returns nil or panics. -/
theorem discourse_load_panics_never_errs (cfg : List (String × CVal)) (urlv : CVal)
    (hurl : cfgLookup cfg "url" = some urlv)
    (hbad : credsBadlyTyped cfg = true) :
    discourseLoad cfg = .panicked ∧
    ∀ cfg2 : List (String × CVal), discourseLoad cfg2 ≠ .err := by
  constructor
  · unfold discourseLoad
    rw [hurl]
    unfold credsBadlyTyped at hbad
    rcases hcred : cfgLookup cfg "credentials" with _ | cv
    · simp
    · cases cv with
      | str s => simp
      | num n => simp
      | cmap entries =>
          rw [hcred] at hbad
          simp only [Option.isNone_iff_eq_none] at hbad
          simp [hbad]
  · intro cfg2 hcontra
    unfold discourseLoad at hcontra
    repeat' split at hcontra
    all_goals simp_all

/-- Witness for `discourse_load_panics_never_errs`: a configuration with
a `url` but no `credentials` entry. -/
theorem discourse_load_panics_never_errs_witness :
    discourseLoad [("url", .str "https://example.org")] = .panicked :=
  (discourse_load_panics_never_errs [("url", .str "https://example.org")]
    (.str "https://example.org") rfl rfl).1

/-- Modelled from the spec: the backend category shape used by the
category tree (the service-handler model types are not part of the
sources at hand) — a subcategory has a numeric identifier and a display
name. -/
structure SubcategoryModel where
  ID : Int
  Name : String
deriving DecidableEq, Repr

/-- Modelled from the spec: a direct category of the backend category
tree, with a numeric identifier, a display name and its list of
subcategories. -/
structure CategoryModel where
  ID : Int
  Name : String
  SubcategoryList : List SubcategoryModel
deriving DecidableEq, Repr

/-- Mirror of the forum-name resolution loop of `ListPosts` (the
`forumName` accumulator starts as the empty string): for each category
in order, a direct identifier match returns that category's name and
stops the scan; otherwise the first matching subcategory of the category
overwrites the accumulator and the scan continues with the next
category (the inner `break` leaves only the subcategory loop). -/
def resolveForumName : List CategoryModel → Int → String → String
  | [], _, forumName => forumName
  | cat :: rest, cid, forumName =>
    if cat.ID == cid then cat.Name
    else
      match cat.SubcategoryList.find? (fun s => s.ID == cid) with
      | some s => resolveForumName rest cid s.Name
      | none => resolveForumName rest cid forumName

/-- Resolution as the claim words it: all direct categories are checked
first, then each category's subcategories are scanned in order, and the
first match wins; an unmatched identifier yields the empty name. -/
def resolveForumNameClaimed (cats : List CategoryModel) (cid : Int) : String :=
  match cats.find? (fun c => c.ID == cid) with
  | some c => c.Name
  | none =>
    match List.findSome? (fun c => c.SubcategoryList.find? (fun s => s.ID == cid)) cats with
    | some s => s.Name
    | none => ""

/-- Last category carrying a subcategory that matches the identifier,
reported as that category's first matching subcategory's name. -/
def lastSubcatMatch : List CategoryModel → Int → Option String
  | [], _ => none
  | c :: rest, cid =>
    match lastSubcatMatch rest cid with
    | some n => some n
    | none => (c.SubcategoryList.find? (fun s => s.ID == cid)).map (fun s => s.Name)

theorem resolveForumName_characterization (cid : Int) :
    ∀ (cats : List CategoryModel) (acc : String),
      resolveForumName cats cid acc =
        match cats.find? (fun c => c.ID == cid) with
        | some c => c.Name
        | none => (lastSubcatMatch cats cid).getD acc := by
  intro cats
  induction cats with
  | nil => intro acc; simp [resolveForumName, lastSubcatMatch]
  | cons c rest ih =>
      intro acc
      by_cases hdir : c.ID == cid
      · simp [resolveForumName, hdir, List.find?_cons_of_pos]
      · rw [List.find?_cons_of_neg _ (by simpa using hdir)]
        rcases hsub : c.SubcategoryList.find? (fun s => s.ID == cid) with _ | s
        · simp only [resolveForumName, hdir, if_false, hsub]
          rw [ih acc]
          simp only [lastSubcatMatch, hsub]
          rcases hlast : lastSubcatMatch rest cid with _ | nm <;>
            rcases hrest : rest.find? (fun c => c.ID == cid) with _ | c' <;>
              simp [hlast, hrest]
        · simp only [resolveForumName, hdir, if_false, hsub]
          rw [ih s.Name]
          simp only [lastSubcatMatch, hsub]
          rcases hlast : lastSubcatMatch rest cid with _ | nm <;>
            rcases hrest : rest.find? (fun c => c.ID == cid) with _ | c' <;>
              simp [hlast, hrest]

/-- Resolution as the code actually behaves, in the amended claim's
words: the first directly matching category wins and stops the scan;
with no direct match, the last category containing a matching
subcategory supplies the name (its first matching subcategory); an
unmatched identifier yields the empty name. -/
def resolveForumNameLastSubcat (cats : List CategoryModel) (cid : Int) : String :=
  match cats.find? (fun c => c.ID == cid) with
  | some c => c.Name
  | none => (lastSubcatMatch cats cid).getD ""

/-- Concrete category tree on which the resolution order is observable:
no direct match for identifier 7, but both categories contain a matching
subcategory. -/
def c3Cats : List CategoryModel := [⟨1, "A", [⟨7, "X"⟩]⟩, ⟨2, "B", [⟨7, "Y"⟩]⟩]

/-- C3 counterexample: on `c3Cats` with category identifier 7 the
claimed first-match-wins resolution yields "X" (the subcategory of the
first category), but `ListPosts` resolves "Y": the inner `break` leaves
only the subcategory loop, so the outer scan continues and a later
subcategory match overwrites an earlier one. -/
theorem resolveForumName_first_match_cex :
    resolveForumName c3Cats 7 "" = "Y" ∧
    resolveForumNameClaimed c3Cats 7 = "X" ∧
    ("Y" : String) ≠ "X" := by
  refine ⟨rfl, rfl, ?_⟩
  decide

/-- C3 (amended): forum-name resolution in `ListPosts` scans categories
in order; the first direct category match wins and stops the scan; with
no direct match, each category's first matching subcategory overwrites
the running name and the scan continues, so the last category containing
a matching subcategory wins; a category identifier matching no category
or subcategory yields an empty forum name, never an error. -/
theorem resolveForumName_resolution (cats : List CategoryModel) (cid : Int) :
    resolveForumName cats cid "" = resolveForumNameLastSubcat cats cid ∧
    (cats.find? (fun c => c.ID == cid) = none → lastSubcatMatch cats cid = none →
      resolveForumName cats cid "" = "") := by
  constructor
  · rw [resolveForumName_characterization cid cats ""]
    rfl
  · intro hdir hsub
    rw [resolveForumName_characterization cid cats "", hdir, hsub]
    rfl

/-- Witness for `resolveForumName_resolution` on the spec's example
tree, at the matched identifier 11 and the unmatched identifier 99. -/
theorem resolveForumName_resolution_witness :
    resolveForumName [⟨1, "A", [⟨11, "A1"⟩]⟩] 11 "" =
      resolveForumNameLastSubcat [⟨1, "A", [⟨11, "A1"⟩]⟩] 11 ∧
    resolveForumName [⟨1, "A", [⟨11, "A1"⟩]⟩] 99 "" = "" :=
  ⟨(resolveForumName_resolution [⟨1, "A", [⟨11, "A1"⟩]⟩] 11).1,
   (resolveForumName_resolution [⟨1, "A", [⟨11, "A1"⟩]⟩] 99).2 rfl rfl⟩

/-- Canonical author: identifier and display name. -/
structure Author where
  ID : String
  Name : String
deriving DecidableEq, Repr

/-- Canonical forum: identifier and display name. -/
structure Forum where
  ID : String
  Name : String
deriving DecidableEq, Repr

/-- Canonical reply; the creation timestamp is the already-normalized
instant (an epoch value). -/
structure Reply where
  ID : String
  InReplyTo : String
  Body : String
  CreatedAt : Int
  Author : Author
  SysIDX : Int
deriving DecidableEq, Repr

/-- Canonical post; `Ptype` stands for the Go field `Type`, a reserved
word here. -/
structure Post where
  ID : String
  Subject : String
  Body : String
  Ptype : String
  Pinned : Bool
  Closed : Bool
  CreatedAt : Int
  LastCommentedAt : Int
  Author : Author
  Forum : Forum
  Replies : List Reply
  SysIDX : Int
deriving DecidableEq, Repr

/-- Modelled from the spec: the embedded poster reference of a topic
(the service-handler model types are not part of the sources at hand);
only the user identifier is consumed by `ListPosts`. -/
structure PosterModel where
  UserID : Int
deriving DecidableEq, Repr

/-- Modelled from the spec: an entry of the listing's embedded user
directory. -/
structure UserModel where
  ID : Int
  Name : String
deriving DecidableEq, Repr

/-- Modelled from the spec: a topic of the latest-topics listing, with
the fields `ListPosts` consumes. -/
structure TopicModel where
  ID : Int
  Title : String
  Pinned : Bool
  Closed : Bool
  CreatedAt : String
  LastPostedAt : String
  Posters : List PosterModel
  CategoryID : Int
deriving DecidableEq, Repr

/-- Modelled from the spec: the category-tree payload
(`CategoryList.Categories`). -/
structure CategoryList where
  Categories : List CategoryModel
deriving DecidableEq, Repr

/-- Modelled from the spec: the response of the category listing. -/
structure CategoryListResponse where
  CategoryList : CategoryList
deriving DecidableEq, Repr

/-- Modelled from the spec: the topic list of the latest-topics
listing. -/
structure TopicList where
  Topics : List TopicModel
deriving DecidableEq, Repr

/-- Modelled from the spec: the response of the latest-topics listing,
carrying the topics and the embedded user directory. -/
structure LatestResponse where
  TopicList : TopicList
  Users : List UserModel
deriving DecidableEq, Repr

/-- Modelled from the spec: a raw post of a topic's post stream, with
the fields `LoadPost` consumes (`Cooked` is the rich-text content). -/
structure PostModel where
  ID : Int
  Name : String
  UserID : Int
  Cooked : String
  CreatedAt : String
deriving DecidableEq, Repr

/-- Modelled from the spec: the post stream of a fully fetched topic. -/
structure PostStream where
  Posts : List PostModel
deriving DecidableEq, Repr

/-- Modelled from the spec: the response of fetching one full topic. -/
structure TopicResponse where
  PostStream : PostStream
deriving DecidableEq, Repr

/-- Modelled from the spec: the backend create-post request; unset
numeric fields are `none` (the spec: a direct topic reply carries no
comment number). -/
structure CreatePostModel where
  Title : String
  Raw : String
  Category : Option Int
  TopicID : Option Int
  ReplyToPostNumber : Option Int
  CreatedAt : String
deriving DecidableEq, Repr

/-- Digit run of `strconv.Atoi`: the value of a non-empty string of
decimal digits, `none` on an empty run or any non-digit. -/
def digitsVal? (cs : List Char) : Option Nat :=
  if cs.isEmpty then none
  else cs.foldl (fun acc c =>
    match acc with
    | none => none
    | some n => if c.isDigit then some (n * 10 + (c.toNat - 48)) else none)
    (some 0)

/-- Mirror of `strconv.Atoi`: an optional sign followed by at least one
decimal digit; anything else is a conversion error (`none`).  The Go
64-bit range check is immaterial to every claim and elided. -/
def atoi? (s : String) : Option Int :=
  match s.data with
  | '+' :: rest => (digitsVal? rest).map (fun n => (n : Int))
  | '-' :: rest => (digitsVal? rest).map (fun n => -(n : Int))
  | cs => (digitsVal? cs).map (fun n => (n : Int))

/-- Error channel of the adapter operations: a context-cancellation
error, a transport error, a typed backend error, or a local
integer-conversion error from `strconv.Atoi`. -/
inductive ApiErr where
  | canceled
  | transport
  | request (env : Response)
  | parseIntErr (s : String)
deriving DecidableEq, Repr

/-- Model of `context.Context` as the domain operations can observe it:
the background context (never canceled) or a caller-supplied cancelable
context. -/
inductive Ctx where
  | background
  | cancelable (generation : Nat)
deriving DecidableEq, Repr

/-- Result of `ListPosts`: the mapped posts, a propagated error, or a
runtime panic (`i.Posters[0]` on a topic with no posters). -/
inductive LPResult where
  | ok (posts : List Post)
  | err (e : ApiErr)
  | panicked
deriving DecidableEq, Repr

/-- Mapping of one topic of the listing into a canonical post, as the
`ListPosts` loop body does: the author name is the first user-directory
match for the first poster (empty when unmatched), both timestamps are
parsed with a fallback to the current time, and the forum name comes
from `resolveForumName`.  A topic with no posters indexes past the end
of `Posters` (`none`). -/
def mapTopic (sysIdx : Int) (parseAny : String → Option Int) (now : Int)
    (cats : CategoryListResponse) (users : List UserModel) (i : TopicModel) : Option Post :=
  match i.Posters with
  | [] => none
  | p0 :: _ =>
    some { ID := toString i.ID, Subject := i.Title, Body := "", Ptype := "post",
           Pinned := i.Pinned, Closed := i.Closed,
           CreatedAt := (parseAny i.CreatedAt).getD now,
           LastCommentedAt := (parseAny i.LastPostedAt).getD now,
           Author := { ID := toString p0.UserID,
                       Name := ((users.find? (fun u => u.ID == p0.UserID)).map
                         (fun u => u.Name)).getD "" },
           Forum := { ID := toString i.CategoryID,
                      Name := resolveForumName cats.CategoryList.Categories i.CategoryID "" },
           Replies := [], SysIDX := sysIdx }

/-- Mirror of the adapter's `ListPosts`: the category tree and then the
latest-topics listing are fetched, each with `context.Background()`; a
failure of either fetch aborts with that error and no partial results;
otherwise every topic is mapped in order. -/
def listPosts (sysIdx : Int) (parseAny : String → Option Int) (now : Int)
    (catsList : Ctx → Except ApiErr CategoryListResponse)
    (latest : Ctx → Except ApiErr LatestResponse) : LPResult :=
  match catsList .background with
  | .error e => .err e
  | .ok cats =>
    match latest .background with
    | .error e => .err e
    | .ok items =>
      match items.TopicList.Topics.mapM (mapTopic sysIdx parseAny now cats items.Users) with
      | none => .panicked
      | some models => .ok models

/-- Reply appended by the `LoadPost` loop for one non-root raw post:
converted body with raw fallback, parsed timestamp with now-fallback,
author taken directly from the raw post, parent set to the loaded
post's identifier. -/
def mkLoadedReply (sysIdx : Int) (conv : String → Option String)
    (parseAny : String → Option Int) (now : Int) (pid : String) (i : PostModel) : Reply :=
  { ID := toString i.ID, InReplyTo := pid,
    Body := (conv i.Cooked).getD i.Cooked,
    CreatedAt := (parseAny i.CreatedAt).getD now,
    Author := { ID := toString i.UserID, Name := i.Name },
    SysIDX := sysIdx }

/-- Mirror of the indexed loop of `LoadPost` over the post stream: the
item at index 0 overwrites the post's body with its converted content;
every later item appends one reply. -/
def loadPostLoop (sysIdx : Int) (conv : String → Option String)
    (parseAny : String → Option Int) (now : Int) : Nat → Post → List PostModel → Post
  | _, p, [] => p
  | idx, p, i :: rest =>
    if idx == 0 then
      loadPostLoop sysIdx conv parseAny now (idx + 1)
        { p with Body := (conv i.Cooked).getD i.Cooked } rest
    else
      loadPostLoop sysIdx conv parseAny now (idx + 1)
        { p with Replies := p.Replies ++ [mkLoadedReply sysIdx conv parseAny now p.ID i] } rest

/-- Mirror of the adapter's `LoadPost`: the full topic is fetched by the
post's identifier with `context.Background()`; an error is propagated
with the post unchanged; otherwise the stream is folded by
`loadPostLoop`.  The mutated post is returned in place of Go's in-place
mutation. -/
def loadPost (sysIdx : Int) (conv : String → Option String)
    (parseAny : String → Option Int) (now : Int)
    (show_ : Ctx → String → Except ApiErr TopicResponse) (p : Post) : Except ApiErr Post :=
  match show_ .background p.ID with
  | .error e => .error e
  | .ok item => .ok (loadPostLoop sysIdx conv parseAny now 0 p item.PostStream.Posts)

/-- Mirror of the adapter's `CreatePost`: the forum identifier must
parse as an integer category; the create request carries title, body,
category and the formatted current time; on success the backend's post
identifier is written back, stringified, into the post. -/
def createPost (create : Ctx → CreatePostModel → Except ApiErr Int)
    (nowStr : String) (p : Post) : Except ApiErr Post :=
  match atoi? p.Forum.ID with
  | none => .error (.parseIntErr p.Forum.ID)
  | some categoryID =>
    match create .background
      { Title := p.Subject, Raw := p.Body, Category := some categoryID,
        TopicID := none, ReplyToPostNumber := none, CreatedAt := nowStr } with
    | .error e => .error e
    | .ok cpID => .ok { p with ID := toString cpID }

/-- Request construction of `CreateReply`: `r.ID` must parse as an
integer; `inReplyTo` starts at the sentinel -1 and is overwritten by
parsing `r.InReplyTo` when that is non-empty; a sentinel value targets
the topic directly (`TopicID = ID`, no `ReplyToPostNumber`), any other
value becomes the topic with `ReplyToPostNumber = ID`. -/
def buildReplyRequest (nowStr : String) (r : Reply) : Except ApiErr CreatePostModel :=
  match atoi? r.ID with
  | none => .error (.parseIntErr r.ID)
  | some rid =>
    match (if r.InReplyTo == "" then Except.ok (-1 : Int)
           else match atoi? r.InReplyTo with
                | none => Except.error (ApiErr.parseIntErr r.InReplyTo)
                | some v => Except.ok v) with
    | .error e => .error e
    | .ok irt =>
      if irt == -1 then
        .ok { Title := "", Raw := r.Body, Category := none, TopicID := some rid,
              ReplyToPostNumber := none, CreatedAt := nowStr }
      else
        .ok { Title := "", Raw := r.Body, Category := none, TopicID := some irt,
              ReplyToPostNumber := some rid, CreatedAt := nowStr }

/-- Mirror of the adapter's `CreateReply`: build the request, submit it
with `context.Background()`, and on success overwrite the reply's
identifier with the stringified backend post identifier. -/
def createReply (create : Ctx → CreatePostModel → Except ApiErr Int)
    (nowStr : String) (r : Reply) : Except ApiErr Reply :=
  match buildReplyRequest nowStr r with
  | .error e => .error e
  | .ok ap =>
    match create .background ap with
    | .error e => .error e
    | .ok cpID => .ok { r with ID := toString cpID }

theorem loadPostLoop_tail (sysIdx : Int) (conv : String → Option String)
    (parseAny : String → Option Int) (now : Int) :
    ∀ (rest : List PostModel) (idx : Nat) (p : Post),
      loadPostLoop sysIdx conv parseAny now (idx + 1) p rest =
        { p with Replies :=
            p.Replies ++ rest.map (mkLoadedReply sysIdx conv parseAny now p.ID) } := by
  intro rest
  induction rest with
  | nil => intro idx p; simp [loadPostLoop]
  | cons i rest ih =>
      intro idx p
      have hne : ((idx + 1 : Nat) == 0) = false := by simp
      simp only [loadPostLoop, hne, if_false, Bool.false_eq_true]
      rw [ih (idx + 1)]
      simp [List.append_assoc]

/-- C5: for every non-empty post stream returned for a topic, `LoadPost`
sets the passed-in post's body from the first item's converted content
and appends exactly one reply per subsequent item, in the order of the
backend response stream, to the post's replies; all other fields of the
post are untouched. -/
theorem loadPost_thread_mapping (sysIdx : Int) (conv : String → Option String)
    (parseAny : String → Option Int) (now : Int)
    (show_ : Ctx → String → Except ApiErr TopicResponse) (p : Post)
    (root : PostModel) (rest : List PostModel)
    (h : show_ .background p.ID = .ok ⟨⟨root :: rest⟩⟩) :
    loadPost sysIdx conv parseAny now show_ p =
      .ok { p with Body := (conv root.Cooked).getD root.Cooked,
                   Replies := p.Replies ++
                     rest.map (mkLoadedReply sysIdx conv parseAny now p.ID) } := by
  simp only [loadPost, h]
  have h0 : loadPostLoop sysIdx conv parseAny now 0 p (root :: rest) =
      loadPostLoop sysIdx conv parseAny now (0 + 1)
        { p with Body := (conv root.Cooked).getD root.Cooked } rest := rfl
  rw [h0, loadPostLoop_tail sysIdx conv parseAny now rest 0]

/-- Converter used by the witness, defined on the spec's example
bodies. -/
def demoConv : String → Option String :=
  fun s => if s == "<p>root</p>" then some "root"
           else if s == "<p>reply</p>" then some "reply" else none

/-- Already-identified post passed to `LoadPost` in the witness. -/
def demoPost : Post :=
  { ID := "1", Subject := "subj", Body := "", Ptype := "post", Pinned := false,
    Closed := false, CreatedAt := 0, LastCommentedAt := 0,
    Author := { ID := "", Name := "" }, Forum := { ID := "", Name := "" },
    Replies := [], SysIDX := 0 }

/-- Root item of the witness post stream. -/
def demoRoot : PostModel :=
  { ID := 1, Name := "", UserID := 0, Cooked := "<p>root</p>", CreatedAt := "" }

/-- Reply item of the witness post stream. -/
def demoReplyItem : PostModel :=
  { ID := 2, Name := "alice", UserID := 3, Cooked := "<p>reply</p>", CreatedAt := "x" }

/-- Topic fetch used by the witness, returning the spec's example
stream. -/
def demoShow : Ctx → String → Except ApiErr TopicResponse :=
  fun _ _ => .ok ⟨⟨[demoRoot, demoReplyItem]⟩⟩

/-- Witness for `loadPost_thread_mapping` on the spec's example stream:
the body becomes the converted root and exactly one reply is appended. -/
theorem loadPost_thread_mapping_witness :
    loadPost 0 demoConv (fun _ => none) 9 demoShow demoPost =
      .ok { demoPost with
        Body := "root"
        Replies := [{ ID := "2", InReplyTo := "1", Body := "reply",
                      CreatedAt := 9, Author := { ID := "3", Name := "alice" },
                      SysIDX := 0 }] } :=
  (loadPost_thread_mapping 0 demoConv (fun _ => none) 9 demoShow demoPost
    demoRoot [demoReplyItem] rfl).trans (by rfl)

/-- C4 (amended): for every reply whose identifier parses as an integer:
with empty `InReplyTo` the request targets the topic directly
(`TopicID` = parsed identifier, no `ReplyToPostNumber`); with non-empty
`InReplyTo` parsing as an integer other than the no-parent sentinel -1,
the request carries `TopicID` = parsed `InReplyTo` and
`ReplyToPostNumber` = parsed identifier; and on success the reply's
identifier is overwritten with the stringified backend-assigned post
identifier. -/
theorem createReply_request_mapping (create : Ctx → CreatePostModel → Except ApiErr Int)
    (nowStr : String) (r : Reply) (rid : Int)
    (hid : atoi? r.ID = some rid) :
    (r.InReplyTo = "" →
      buildReplyRequest nowStr r =
        .ok { Title := "", Raw := r.Body, Category := none, TopicID := some rid,
              ReplyToPostNumber := none, CreatedAt := nowStr }) ∧
    (∀ irt : Int, r.InReplyTo ≠ "" → atoi? r.InReplyTo = some irt → irt ≠ -1 →
      buildReplyRequest nowStr r =
        .ok { Title := "", Raw := r.Body, Category := none, TopicID := some irt,
              ReplyToPostNumber := some rid, CreatedAt := nowStr }) ∧
    (∀ (ap : CreatePostModel) (n : Int),
      buildReplyRequest nowStr r = .ok ap → create .background ap = .ok n →
      createReply create nowStr r = .ok { r with ID := toString n }) := by
  refine ⟨?_, ?_, ?_⟩
  · intro hemp
    simp [buildReplyRequest, hid, hemp]
  · intro irt hne hparse hneg
    have hb : (r.InReplyTo == "") = false := by simp [hne]
    have hi : (irt == (-1 : Int)) = false := by simp [hneg]
    simp [buildReplyRequest, hid, hb, hparse, hi]
  · intro ap n hap hcreate
    simp [createReply, hap, hcreate]

/-- Direct reply used by the witnesses: targets topic 5. -/
def demoReply : Reply :=
  { ID := "5", InReplyTo := "", Body := "hello", CreatedAt := 0,
    Author := { ID := "", Name := "" }, SysIDX := 0 }

/-- Nested reply used by the witnesses: comment 7 within topic 5. -/
def demoReplyNested : Reply :=
  { demoReply with ID := "7", InReplyTo := "5" }

/-- Witness for `createReply_request_mapping` on the spec's two
examples, with a backend assigning post identifier 42. -/
theorem createReply_request_mapping_witness :
    buildReplyRequest "t" demoReply =
      .ok { Title := "", Raw := "hello", Category := none, TopicID := some 5,
            ReplyToPostNumber := none, CreatedAt := "t" } ∧
    buildReplyRequest "t" demoReplyNested =
      .ok { Title := "", Raw := "hello", Category := none, TopicID := some 5,
            ReplyToPostNumber := some 7, CreatedAt := "t" } ∧
    createReply (fun _ _ => .ok 42) "t" demoReply = .ok { demoReply with ID := "42" } :=
  ⟨(createReply_request_mapping (fun _ _ => .ok 42) "t" demoReply 5 rfl).1 rfl,
   (createReply_request_mapping (fun _ _ => .ok 42) "t" demoReplyNested 7 rfl).2.1
     5 (by decide) rfl (by decide),
   (createReply_request_mapping (fun _ _ => .ok 42) "t" demoReply 5 rfl).2.2
     _ 42 rfl rfl⟩

/-- C4 counterexample: with `ID = "7"` and the non-empty `InReplyTo =
"-1"`, which parses as the integer -1, the claim dictates `TopicID = -1`
and `ReplyToPostNumber = 7`; the code instead parses "-1" into the
no-parent sentinel and builds a direct topic reply with `TopicID = 7`
and no `ReplyToPostNumber`. -/
theorem createReply_minus_one_cex :
    atoi? "-1" = some (-1) ∧
    buildReplyRequest "t" { demoReply with ID := "7", InReplyTo := "-1" } =
      .ok { Title := "", Raw := "hello", Category := none, TopicID := some 7,
            ReplyToPostNumber := none, CreatedAt := "t" } ∧
    (some (7 : Int) ≠ some (-1 : Int) ∧ (none : Option Int) ≠ some (7 : Int)) :=
  ⟨rfl, rfl, by decide, by decide⟩

/-- C10: for a reply whose `InReplyTo` is the non-empty string "-1",
`CreateReply` parses it into the value used internally as the no-parent
sentinel, so the request is a direct topic reply (`TopicID` = parsed
identifier, no `ReplyToPostNumber`) even though `InReplyTo` is
non-empty — the two input shapes are not distinguished by emptiness
alone. -/
theorem createReply_sentinel_collision (nowStr : String) (r : Reply) (rid : Int)
    (hid : atoi? r.ID = some rid) (hirt : r.InReplyTo = "-1") :
    r.InReplyTo ≠ "" ∧
    buildReplyRequest nowStr r =
      .ok { Title := "", Raw := r.Body, Category := none, TopicID := some rid,
            ReplyToPostNumber := none, CreatedAt := nowStr } := by
  constructor
  · rw [hirt]
    decide
  · have hb : (r.InReplyTo == "") = false := by simp [hirt]
    have hparse : atoi? r.InReplyTo = some (-1) := by rw [hirt]; rfl
    simp [buildReplyRequest, hid, hb, hparse]

/-- Witness for `createReply_sentinel_collision` at the concrete reply
with identifier "7" and `InReplyTo` "-1". -/
theorem createReply_sentinel_collision_witness :
    ({ demoReply with ID := "7", InReplyTo := "-1" } : Reply).InReplyTo ≠ "" ∧
    buildReplyRequest "t" { demoReply with ID := "7", InReplyTo := "-1" } =
      .ok { Title := "", Raw := "hello", Category := none, TopicID := some 7,
            ReplyToPostNumber := none, CreatedAt := "t" } :=
  createReply_sentinel_collision "t" { demoReply with ID := "7", InReplyTo := "-1" } 7 rfl rfl

/-- C7 (amended): the domain operations accept no caller-supplied
cancellation context — each invokes its backend calls with
`context.Background()` only, so the result of every operation is
unchanged when the backend behavior at every cancelable context is
replaced arbitrarily: caller cancellation cannot reach the network
call. -/
theorem domain_ops_background_only
    (sysIdx : Int) (parseAny : String → Option Int) (now : Int)
    (conv : String → Option String) (nowStr : String)
    (f f' : Ctx → Except ApiErr CategoryListResponse)
    (g g' : Ctx → Except ApiErr LatestResponse)
    (s s' : Ctx → String → Except ApiErr TopicResponse)
    (cr cr' : Ctx → CreatePostModel → Except ApiErr Int)
    (hf : f .background = f' .background)
    (hg : g .background = g' .background)
    (hs : s .background = s' .background)
    (hcr : cr .background = cr' .background)
    (p q : Post) (r : Reply) :
    listPosts sysIdx parseAny now f g = listPosts sysIdx parseAny now f' g' ∧
    loadPost sysIdx conv parseAny now s p = loadPost sysIdx conv parseAny now s' p ∧
    createPost cr nowStr q = createPost cr' nowStr q ∧
    createReply cr nowStr r = createReply cr' nowStr r := by
  refine ⟨?_, ?_, ?_, ?_⟩
  · simp only [listPosts, hf, hg]
  · simp only [loadPost, hs]
  · simp only [createPost, hcr]
  · simp only [createReply, hcr]

/-- Category listing that reports a cancellation error on every
cancelable context and succeeds (with an empty tree) only on the
background context. -/
def cancelAwareCats : Ctx → Except ApiErr CategoryListResponse :=
  fun c => match c with
  | .background => .ok ⟨⟨[]⟩⟩
  | .cancelable _ => .error .canceled

/-- Latest-topics listing that reports a cancellation error on every
cancelable context and succeeds (empty) only on the background
context. -/
def cancelAwareLatest : Ctx → Except ApiErr LatestResponse :=
  fun c => match c with
  | .background => .ok ⟨⟨[]⟩, []⟩
  | .cancelable _ => .error .canceled

/-- Backend create call that reports a cancellation error on every
cancelable context and assigns post identifier 42 on the background
context. -/
def cancelAwareCreate : Ctx → CreatePostModel → Except ApiErr Int :=
  fun c _ => match c with
  | .background => .ok 42
  | .cancelable _ => .error .canceled

/-- C7 counterexample: `ListPosts` hardcodes `context.Background()` and
takes no context parameter, so even against a backend reporting a
cancellation error on every cancelable context — modelling a caller
that has canceled everything in its power — the operation completes
with an ordinary success instead of a cancellation-classified error:
no caller-supplied context is propagated to the network call. -/
theorem domain_ops_cancellation_cex :
    listPosts 0 (fun _ => none) 0 cancelAwareCats cancelAwareLatest = .ok [] ∧
    (LPResult.ok [] ≠ .err .canceled) :=
  ⟨rfl, by decide⟩

/-- Witness for `domain_ops_background_only`: the cancel-aware services
agree at the background context with services that never cancel, and
every operation's result is the same for both. -/
theorem domain_ops_background_only_witness :
    listPosts 0 (fun _ => none) 0 cancelAwareCats cancelAwareLatest =
      listPosts 0 (fun _ => none) 0 (fun _ => .ok ⟨⟨[]⟩⟩) (fun _ => .ok ⟨⟨[]⟩, []⟩) ∧
    loadPost 0 (fun _ => none) (fun _ => none) 0 demoShow demoPost =
      loadPost 0 (fun _ => none) (fun _ => none) 0 demoShow demoPost ∧
    createPost cancelAwareCreate "t" demoPost =
      createPost (fun _ _ => .ok 42) "t" demoPost ∧
    createReply cancelAwareCreate "t" demoReply =
      createReply (fun _ _ => .ok 42) "t" demoReply :=
  domain_ops_background_only 0 (fun _ => none) 0 (fun _ => none) "t"
    cancelAwareCats (fun _ => .ok ⟨⟨[]⟩⟩)
    cancelAwareLatest (fun _ => .ok ⟨⟨[]⟩, []⟩)
    demoShow demoShow
    cancelAwareCreate (fun _ _ => .ok 42)
    rfl rfl rfl rfl demoPost demoPost demoReply
